import Mathlib

/-!
Shallow embedding of the multi-agent-chat core: the provider-agnostic
agent state from api_handler.py, the five provider adapters
(ollama_handler.py, openai_handler.py, anthropic_handler.py,
grok_handler.py, gemini_handler.py) and the turn-orchestration loop of
main.py (run_conversation).  Each network interaction is abstracted as
an oracle argument describing the outcome of the single call the
operation performs; everything else is translated directly from the
source.  Logger/Sink calls are external side effects and are not part
of the embedded state.
-/

namespace MultiAgentChat

/-- A chat message as stored in conversation_history: a dict with
role and content string fields. -/
structure Message where
  role : String
  content : String
  deriving DecidableEq, Repr

/-- The mutable agent-state fields set up by APIHandler.__init__:
conversation_history = [], selected_model = None, system_prompt = None.
An unset optional field is none. -/
structure HandlerState where
  conversation_history : List Message
  selected_model : Option String
  system_prompt : Option String
  deriving DecidableEq, Repr

/-- Python truthiness of an optional string field: None and the empty
string are falsy, mirroring guards of the form if not self.x. -/
def strOptTruthy : Option String → Bool
  | none => false
  | some s => !(s == "")

/-- APIHandler.set_model: stores the model identifier. -/
def set_model (st : HandlerState) (model_name : String) : HandlerState :=
  { st with selected_model := some model_name }

/-- APIHandler.set_system_prompt: stores the system prompt verbatim. -/
def set_system_prompt (st : HandlerState) (sp : String) : HandlerState :=
  { st with system_prompt := some sp }

/-- APIHandler.clear_conversation_history: resets the history to []. -/
def clear_conversation_history (st : HandlerState) : HandlerState :=
  { st with conversation_history := [] }

/-- APIHandler.get_conversation_history: a fresh list holding a
synthetic system-role entry when self.system_prompt is truthy, followed
by the stored history. -/
def get_conversation_history (st : HandlerState) : List Message :=
  match st.system_prompt with
  | none => st.conversation_history
  | some sp =>
      if sp == "" then st.conversation_history
      else Message.mk "system" sp :: st.conversation_history

/-- APIHandler.get_conversation_length: the number of stored messages. -/
def get_conversation_length (st : HandlerState) : Nat :=
  st.conversation_history.length

/-- The two agents of a run: agent1 is the first-mover (its history is
seeded), agent2 the second-mover (replies first each turn). -/
structure SessionAgents where
  agent1 : HandlerState
  agent2 : HandlerState
  deriving DecidableEq, Repr

/-- The Idle → Running seeding step: start_conversation clears both
agents' histories, then run_conversation appends the initial prompt to
agent1's history as an assistant-role entry (main.py lines 625-626 and
664). -/
def seed_session (s : SessionAgents) (initial_prompt : String) : SessionAgents :=
  let a1 := clear_conversation_history s.agent1
  let a2 := clear_conversation_history s.agent2
  SessionAgents.mk
    { a1 with conversation_history :=
        a1.conversation_history ++ [Message.mk "assistant" initial_prompt] }
    a2

/-- Outcome of the single provider network call a get_response
performs: the extracted reply text on success, or the text of the
raised exception on failure. -/
inductive CallResult where
  | success (text : String)
  | failure (err : String)
  deriving DecidableEq, Repr

/-- OllamaHandler.get_response.  The request list built from the system
prompt, the prior history and the prompt is consumed by the abstracted
network call; the user-turn entry is appended to the history before the
call, the assistant entry only on success. -/
def ollama_get_response (st : HandlerState) (prompt : String)
    (call : CallResult) : HandlerState × String :=
  if !strOptTruthy st.selected_model then
    (st, "Error: No model selected")
  else
    let st1 := { st with conversation_history :=
      st.conversation_history ++ [Message.mk "user" prompt] }
    match call with
    | CallResult.success text =>
        ({ st1 with conversation_history :=
            st1.conversation_history ++ [Message.mk "assistant" text] }, text)
    | CallResult.failure _ =>
        (st1, "Error: Could not generate response")

/-- OpenAIHandler.get_response.  client records whether the OpenAI
client object was constructed by set_api_key; the guard is
if not self.api_key or not self.client. -/
def openai_get_response (api_key : Option String) (client : Bool)
    (st : HandlerState) (prompt : String) (call : CallResult) :
    HandlerState × String :=
  if !strOptTruthy api_key || !client then
    (st, "Error: OpenAI API key not set")
  else if !strOptTruthy st.selected_model then
    (st, "Error: No model selected")
  else
    let st1 := { st with conversation_history :=
      st.conversation_history ++ [Message.mk "user" prompt] }
    match call with
    | CallResult.success text =>
        ({ st1 with conversation_history :=
            st1.conversation_history ++ [Message.mk "assistant" text] }, text)
    | CallResult.failure e =>
        (st1, "Error: Could not generate response - " ++ e)

/-- AnthropicHandler.get_response: same control flow as the OpenAI
adapter with an Anthropic-specific key error string; the role-remapped
request list is consumed by the abstracted network call. -/
def anthropic_get_response (api_key : Option String) (client : Bool)
    (st : HandlerState) (prompt : String) (call : CallResult) :
    HandlerState × String :=
  if !strOptTruthy api_key || !client then
    (st, "Error: Anthropic API key not set")
  else if !strOptTruthy st.selected_model then
    (st, "Error: No model selected")
  else
    let st1 := { st with conversation_history :=
      st.conversation_history ++ [Message.mk "user" prompt] }
    match call with
    | CallResult.success text =>
        ({ st1 with conversation_history :=
            st1.conversation_history ++ [Message.mk "assistant" text] }, text)
    | CallResult.failure e =>
        (st1, "Error: Could not generate response - " ++ e)

/-- Outcome of the Grok chat-completions POST: a 200 response with the
reply content extracted, a non-200 response carrying its status code
and body text, or a raised exception. -/
inductive GrokCallResult where
  | ok (content : String)
  | httpError (status : Nat) (text : String)
  | exc (e : String)
  deriving DecidableEq, Repr

/-- GrokHandler.get_response: no client object, only the key guard; a
non-200 status is turned into an error string without raising, other
failures are caught by the except clause. -/
def grok_get_response (api_key : Option String) (st : HandlerState)
    (prompt : String) (call : GrokCallResult) : HandlerState × String :=
  if !strOptTruthy api_key then
    (st, "Error: Grok API key not set")
  else if !strOptTruthy st.selected_model then
    (st, "Error: No model selected")
  else
    let st1 := { st with conversation_history :=
      st.conversation_history ++ [Message.mk "user" prompt] }
    match call with
    | GrokCallResult.ok content =>
        ({ st1 with conversation_history :=
            st1.conversation_history ++ [Message.mk "assistant" content] }, content)
    | GrokCallResult.httpError status text =>
        (st1, "Error: Grok API error: " ++ toString status ++ " - " ++ text)
    | GrokCallResult.exc e =>
        (st1, "Error: Could not generate response - " ++ e)

/-- GeminiHandler.get_response: the history is converted to the Gemini
wire format and consumed by the abstracted call; unlike the other
adapters, BOTH history appends happen inside the try block after the
call succeeds, so a failing call leaves the history untouched. -/
def gemini_get_response (api_key : Option String) (client : Bool)
    (st : HandlerState) (prompt : String) (call : CallResult) :
    HandlerState × String :=
  if !strOptTruthy api_key || !client then
    (st, "Error: Gemini API key not set")
  else if !strOptTruthy st.selected_model then
    (st, "Error: No model selected")
  else
    match call with
    | CallResult.success text =>
        ({ st with conversation_history := st.conversation_history ++
            [Message.mk "user" prompt, Message.mk "assistant" text] }, text)
    | CallResult.failure e =>
        (st, "Error: Could not generate response - " ++ e)

/-- Python str.startswith on a candidate head s0 of s. -/
def pyStartsWith (s s0 : String) : Bool :=
  s0.data.isPrefixOf s.data

/-- Python substring membership test, sub in s: some suffix of s has
sub as a head. -/
def pyContains (s sub : String) : Bool :=
  (List.range (s.data.length + 1)).any fun i => sub.data.isPrefixOf (s.data.drop i)

/-- Result of running a Python code path that may raise: either the
value returned normally, or the text of the exception that propagated. -/
inductive PyResult (α : Type) where
  | ret (v : α)
  | raised (e : String)
  deriving DecidableEq, Repr

/-- Outcome of requests.get(address ++ "/api/tags") as the Ollama
model-list code observes it: a response with a status code whose body,
when parsed, either yields the model names or raises; a connection
error; or another exception raised by the transport. -/
inductive OllamaTagsOutcome where
  | got (status : Nat) (body : PyResult (List String))
  | connError
  | otherExc (e : String)
  deriving DecidableEq, Repr

/-- OllamaHandler.get_available_models: only
requests.exceptions.ConnectionError is caught.  A non-200 status is
reported and yields []; a 200 response's body is parsed, and an
exception raised by that parse, or any non-connection transport
exception, propagates to the caller (modelled as Except.error). -/
def ollama_get_available_models (outcome : OllamaTagsOutcome) :
    PyResult (List String) :=
  match outcome with
  | OllamaTagsOutcome.got status body =>
      if status == 200 then
        match body with
        | PyResult.ret models => PyResult.ret models
        | PyResult.raised e => PyResult.raised e
      else PyResult.ret []
  | OllamaTagsOutcome.connError => PyResult.ret []
  | OllamaTagsOutcome.otherExc e => PyResult.raised e

/-- Outcome of a hosted provider's model-list API call: the listed
model identifiers, or a raised exception. -/
inductive ModelListOutcome where
  | ok (ids : List String)
  | exc (e : String)
  deriving DecidableEq, Repr

/-- OpenAIHandler.get_available_models: without key and client returns
[]; otherwise queries client.models.list() live and filters the ids to
those starting with gpt-3.5 or gpt-4; every exception is caught and
yields []. -/
def openai_get_available_models (api_key : Option String) (client : Bool)
    (outcome : ModelListOutcome) : PyResult (List String) :=
  if !strOptTruthy api_key || !client then PyResult.ret []
  else
    match outcome with
    | ModelListOutcome.ok ids =>
        PyResult.ret (ids.filter fun i => pyStartsWith i "gpt-3.5" || pyStartsWith i "gpt-4")
    | ModelListOutcome.exc _ => PyResult.ret []

/-- AnthropicHandler.get_available_models: static catalog, no network
call at all. -/
def anthropic_get_available_models (api_key : Option String) (client : Bool) :
    PyResult (List String) :=
  if !strOptTruthy api_key || !client then PyResult.ret []
  else PyResult.ret ["claude-3-opus-20240229", "claude-3-sonnet-20240229",
                     "claude-3-haiku-20240307"]

/-- GrokHandler.get_available_models: static catalog, no network call. -/
def grok_get_available_models (api_key : Option String) :
    PyResult (List String) :=
  if !strOptTruthy api_key then PyResult.ret []
  else PyResult.ret ["grok-1", "grok-2"]

/-- GeminiHandler.get_available_models: live query filtered to names
containing "gemini"; every exception is caught and yields the static
fallback catalog. -/
def gemini_get_available_models (api_key : Option String) (client : Bool)
    (outcome : ModelListOutcome) : PyResult (List String) :=
  if !strOptTruthy api_key || !client then PyResult.ret []
  else
    match outcome with
    | ModelListOutcome.ok names =>
        PyResult.ret (names.filter fun n => pyContains n "gemini")
    | ModelListOutcome.exc _ =>
        PyResult.ret ["gemini-1.0-pro", "gemini-1.5-pro", "gemini-1.5-flash"]

/-- Who replies in a half-turn of run_conversation: first is agent1
(the seeded first-mover), second is agent2 (replies first each turn). -/
inductive Speaker where
  | first
  | second
  deriving DecidableEq, Repr

/-- The for-loop of run_conversation (main.py lines 670-704), indexed
by the number of adapter calls already made (c, the point at which the
cancellation flag stop is sampled at each check) and by the turns
remaining: remaining + 1 loop iterations are left, so remaining = 0
means turn == max_turns.  Each iteration checks the flag at the top,
calls agent2, checks the flag (or the final turn) after the pacing
delay, and only then calls agent1.  Returns the trace of adapter calls
in order, and whether the final check if not self.stop_conversation
reports completion. -/
def loopFrom (stop : Nat → Bool) : Nat → Nat → List Speaker × Bool
  | c, 0 => ([], !stop c)
  | c, remaining + 1 =>
      if stop c then ([], !stop c)
      else if stop (c + 1) || remaining == 0 then ([Speaker.second], !stop (c + 1))
      else
        let r := loopFrom stop (c + 2) remaining
        (Speaker.second :: Speaker.first :: r.1, r.2)

/-- run_conversation's loop for max_turns turns, starting with no
adapter calls made.  The first component is the ordered trace of
adapter calls; the second is true exactly when the completion message
"Conversation completed (reached maximum turns)" is logged. -/
def run_conversation_calls (stop : Nat → Bool) (max_turns : Nat) :
    List Speaker × Bool :=
  loopFrom stop 0 max_turns

/-- The cancellation flag as a function of completed adapter calls:
set (and, being never cleared during a run, observed true) from the
pacing delay that follows adapter call k onward. -/
def stopAt (k : Nat) : Nat → Bool :=
  fun j => decide (k ≤ j)

/-- The strictly alternating call trace for n turns: agent2 (second
mover) replies every turn, agent1 after every turn except the last. -/
def altTrace : Nat → List Speaker
  | 0 => []
  | 1 => [Speaker.second]
  | n + 2 => Speaker.second :: Speaker.first :: altTrace (n + 1)

/-- A reply string that begins with the literal tag "Error:". -/
def errorTagged (s : String) : Prop :=
  ∃ rest, s = "Error:" ++ rest

/-- Concrete agent state with a system prompt set, used to instantiate
the history-projection theorem. -/
def stWithPrompt : HandlerState :=
  HandlerState.mk [Message.mk "user" "hi"] (some "m") (some "be concise")

/-- Concrete agent state with no model selected, used to instantiate
the missing-model theorem. -/
def stNoModel : HandlerState :=
  HandlerState.mk [] none (some "sys")

/-- Concrete agent state with a model selected, used to instantiate the
success and failure theorems. -/
def stReady : HandlerState :=
  HandlerState.mk [] (some "model-a") none

/-! ## Helper lemmas -/

theorem string_append_assoc (a b c : String) : a ++ b ++ c = a ++ (b ++ c) := by
  cases a with
  | mk da =>
    cases b with
    | mk db =>
      cases c with
      | mk dc =>
        show String.mk (da ++ db ++ dc) = String.mk (da ++ (db ++ dc))
        rw [List.append_assoc]

theorem errorTagged_append (a b : String) (h : errorTagged a) :
    errorTagged (a ++ b) := by
  obtain ⟨r, hr⟩ := h
  exact ⟨r ++ b, by rw [hr, string_append_assoc]⟩

theorem errorTagged_noModel : errorTagged "Error: No model selected" :=
  ⟨" No model selected", by decide⟩

theorem errorTagged_openaiKey : errorTagged "Error: OpenAI API key not set" :=
  ⟨" OpenAI API key not set", by decide⟩

theorem errorTagged_anthropicKey : errorTagged "Error: Anthropic API key not set" :=
  ⟨" Anthropic API key not set", by decide⟩

theorem errorTagged_geminiKey : errorTagged "Error: Gemini API key not set" :=
  ⟨" Gemini API key not set", by decide⟩

theorem errorTagged_grokKey : errorTagged "Error: Grok API key not set" :=
  ⟨" Grok API key not set", by decide⟩

theorem errorTagged_noGen : errorTagged "Error: Could not generate response" :=
  ⟨" Could not generate response", by decide⟩

theorem errorTagged_noGenDash (e : String) :
    errorTagged ("Error: Could not generate response - " ++ e) :=
  errorTagged_append _ e ⟨" Could not generate response - ", by decide⟩

theorem errorTagged_grokHttp (status : Nat) (text : String) :
    errorTagged ("Error: Grok API error: " ++ toString status ++ " - " ++ text) :=
  errorTagged_append _ text
    (errorTagged_append _ " - "
      (errorTagged_append _ (toString status) ⟨" Grok API error: ", by decide⟩))

theorem pair_eq_error {res : HandlerState × String} {st : HandlerState} {s : String}
    (h : res = (st, s)) (ht : errorTagged s) : res.1 = st ∧ errorTagged res.2 := by
  subst h
  exact ⟨rfl, ht⟩

/-! ## Claim theorems -/

/-- C10: each configuration operation mutates only its own field:
set_model leaves the history and the system prompt unchanged,
set_system_prompt leaves the history and the selected model unchanged,
and clear_conversation_history leaves the selected model and the system
prompt unchanged. -/
theorem config_ops_frame (st : HandlerState) (m sp : String) :
    (set_model st m).conversation_history = st.conversation_history ∧
    (set_model st m).system_prompt = st.system_prompt ∧
    (set_system_prompt st sp).conversation_history = st.conversation_history ∧
    (set_system_prompt st sp).selected_model = st.selected_model ∧
    (clear_conversation_history st).selected_model = st.selected_model ∧
    (clear_conversation_history st).system_prompt = st.system_prompt :=
  ⟨rfl, rfl, rfl, rfl, rfl, rfl⟩

/-- C2: the Idle → Running seeding step clears both agents' histories
and appends exactly one assistant-role entry carrying the initial
prompt to the first-mover's history, leaving the second-mover's history
empty. -/
theorem seed_session_spec (s : SessionAgents) (p : String) :
    (seed_session s p).agent1.conversation_history = [Message.mk "assistant" p] ∧
    (seed_session s p).agent2.conversation_history = [] := by
  constructor
  · simp [seed_session, clear_conversation_history]
  · simp [seed_session, clear_conversation_history]

/-- C9: get_conversation_history is the stored history prefixed with
exactly one synthetic system entry when a (truthy) system prompt is
set, and the bare stored history otherwise, while
get_conversation_length counts only the stored messages; hence the
projected length exceeds the stored length by one exactly when a system
prompt is set. -/
theorem history_projection_spec (st : HandlerState) :
    (get_conversation_history st).length =
      get_conversation_length st +
        (if strOptTruthy st.system_prompt then 1 else 0) ∧
    (strOptTruthy st.system_prompt = false →
      get_conversation_history st = st.conversation_history) ∧
    (∀ sp, st.system_prompt = some sp → sp ≠ "" →
      get_conversation_history st =
        Message.mk "system" sp :: st.conversation_history) := by
  refine ⟨?_, ?_, ?_⟩
  · cases h : st.system_prompt with
    | none => simp [get_conversation_history, get_conversation_length, strOptTruthy, h]
    | some sp =>
      by_cases hsp : sp = ""
      · simp [get_conversation_history, get_conversation_length, strOptTruthy, h, hsp]
      · simp [get_conversation_history, get_conversation_length, strOptTruthy, h, hsp]
  · intro hfalse
    cases h : st.system_prompt with
    | none => simp [get_conversation_history, h]
    | some sp =>
      rw [h] at hfalse
      simp [strOptTruthy] at hfalse
      simp [get_conversation_history, h, hfalse]
  · intro sp hsp hne
    simp [get_conversation_history, hsp, hne]

/-- Witness for C9 at a concrete agent state with system prompt
"be concise" and one stored message. -/
theorem history_projection_spec_witness :
    get_conversation_history stWithPrompt =
      Message.mk "system" "be concise" :: stWithPrompt.conversation_history :=
  (history_projection_spec stWithPrompt).2.2 "be concise" rfl (by decide)

/-- C4: for every adapter, get_response with no model selected returns
a string starting with "Error:" and leaves the agent state (in
particular the history) exactly unchanged; likewise for the key-based
adapters when the API key is missing. -/
theorem missing_config_guard (api_key : Option String) (client : Bool)
    (st : HandlerState) (p : String) (c : CallResult) (g : GrokCallResult) :
    (strOptTruthy st.selected_model = false →
      (ollama_get_response st p c).1 = st ∧
        errorTagged (ollama_get_response st p c).2 ∧
      (openai_get_response api_key client st p c).1 = st ∧
        errorTagged (openai_get_response api_key client st p c).2 ∧
      (anthropic_get_response api_key client st p c).1 = st ∧
        errorTagged (anthropic_get_response api_key client st p c).2 ∧
      (gemini_get_response api_key client st p c).1 = st ∧
        errorTagged (gemini_get_response api_key client st p c).2 ∧
      (grok_get_response api_key st p g).1 = st ∧
        errorTagged (grok_get_response api_key st p g).2) ∧
    (strOptTruthy api_key = false →
      (openai_get_response api_key client st p c).1 = st ∧
        errorTagged (openai_get_response api_key client st p c).2 ∧
      (anthropic_get_response api_key client st p c).1 = st ∧
        errorTagged (anthropic_get_response api_key client st p c).2 ∧
      (gemini_get_response api_key client st p c).1 = st ∧
        errorTagged (gemini_get_response api_key client st p c).2 ∧
      (grok_get_response api_key st p g).1 = st ∧
        errorTagged (grok_get_response api_key st p g).2) := by
  constructor
  · intro hm
    have hollama : ollama_get_response st p c = (st, "Error: No model selected") := by
      simp [ollama_get_response, hm]
    have hopenai : (openai_get_response api_key client st p c).1 = st ∧
        errorTagged (openai_get_response api_key client st p c).2 := by
      cases hk : (!strOptTruthy api_key || !client) with
      | true => exact pair_eq_error (by simp [openai_get_response, hk]) errorTagged_openaiKey
      | false => exact pair_eq_error (by simp [openai_get_response, hk, hm]) errorTagged_noModel
    have hanthropic : (anthropic_get_response api_key client st p c).1 = st ∧
        errorTagged (anthropic_get_response api_key client st p c).2 := by
      cases hk : (!strOptTruthy api_key || !client) with
      | true => exact pair_eq_error (by simp [anthropic_get_response, hk]) errorTagged_anthropicKey
      | false => exact pair_eq_error (by simp [anthropic_get_response, hk, hm]) errorTagged_noModel
    have hgemini : (gemini_get_response api_key client st p c).1 = st ∧
        errorTagged (gemini_get_response api_key client st p c).2 := by
      cases hk : (!strOptTruthy api_key || !client) with
      | true => exact pair_eq_error (by simp [gemini_get_response, hk]) errorTagged_geminiKey
      | false => exact pair_eq_error (by simp [gemini_get_response, hk, hm]) errorTagged_noModel
    have hgrok : (grok_get_response api_key st p g).1 = st ∧
        errorTagged (grok_get_response api_key st p g).2 := by
      cases hk : (!strOptTruthy api_key) with
      | true => exact pair_eq_error (by simp [grok_get_response, hk]) errorTagged_grokKey
      | false => exact pair_eq_error (by simp [grok_get_response, hk, hm]) errorTagged_noModel
    exact ⟨(pair_eq_error hollama errorTagged_noModel).1,
      (pair_eq_error hollama errorTagged_noModel).2,
      hopenai.1, hopenai.2, hanthropic.1, hanthropic.2,
      hgemini.1, hgemini.2, hgrok.1, hgrok.2⟩
  · intro hkey
    have hk : (!strOptTruthy api_key || !client) = true := by simp [hkey]
    have hk2 : (!strOptTruthy api_key) = true := by simp [hkey]
    have h1 : (openai_get_response api_key client st p c).1 = st ∧
        errorTagged (openai_get_response api_key client st p c).2 :=
      pair_eq_error (by simp [openai_get_response, hk]) errorTagged_openaiKey
    have h2 : (anthropic_get_response api_key client st p c).1 = st ∧
        errorTagged (anthropic_get_response api_key client st p c).2 :=
      pair_eq_error (by simp [anthropic_get_response, hk]) errorTagged_anthropicKey
    have h3 : (gemini_get_response api_key client st p c).1 = st ∧
        errorTagged (gemini_get_response api_key client st p c).2 :=
      pair_eq_error (by simp [gemini_get_response, hk]) errorTagged_geminiKey
    have h4 : (grok_get_response api_key st p g).1 = st ∧
        errorTagged (grok_get_response api_key st p g).2 :=
      pair_eq_error (by simp [grok_get_response, hk2]) errorTagged_grokKey
    exact ⟨h1.1, h1.2, h2.1, h2.2, h3.1, h3.2, h4.1, h4.2⟩

/-- Witness for C4: the guard theorem applied at a concrete agent state
with no model selected (first part), and at a missing API key with a
model selected (second part). -/
theorem missing_config_guard_witness :
    ((ollama_get_response stNoModel "hi" (CallResult.failure "boom")).1 = stNoModel ∧
      errorTagged (ollama_get_response stNoModel "hi" (CallResult.failure "boom")).2 ∧
     (openai_get_response (some "k") true stNoModel "hi" (CallResult.failure "boom")).1 = stNoModel ∧
      errorTagged (openai_get_response (some "k") true stNoModel "hi" (CallResult.failure "boom")).2 ∧
     (anthropic_get_response (some "k") true stNoModel "hi" (CallResult.failure "boom")).1 = stNoModel ∧
      errorTagged (anthropic_get_response (some "k") true stNoModel "hi" (CallResult.failure "boom")).2 ∧
     (gemini_get_response (some "k") true stNoModel "hi" (CallResult.failure "boom")).1 = stNoModel ∧
      errorTagged (gemini_get_response (some "k") true stNoModel "hi" (CallResult.failure "boom")).2 ∧
     (grok_get_response (some "k") stNoModel "hi" (GrokCallResult.exc "boom")).1 = stNoModel ∧
      errorTagged (grok_get_response (some "k") stNoModel "hi" (GrokCallResult.exc "boom")).2) ∧
    ((openai_get_response none true stReady "hi" (CallResult.failure "boom")).1 = stReady ∧
      errorTagged (openai_get_response none true stReady "hi" (CallResult.failure "boom")).2 ∧
     (anthropic_get_response none true stReady "hi" (CallResult.failure "boom")).1 = stReady ∧
      errorTagged (anthropic_get_response none true stReady "hi" (CallResult.failure "boom")).2 ∧
     (gemini_get_response none true stReady "hi" (CallResult.failure "boom")).1 = stReady ∧
      errorTagged (gemini_get_response none true stReady "hi" (CallResult.failure "boom")).2 ∧
     (grok_get_response none stReady "hi" (GrokCallResult.exc "boom")).1 = stReady ∧
      errorTagged (grok_get_response none stReady "hi" (GrokCallResult.exc "boom")).2) :=
  ⟨(missing_config_guard (some "k") true stNoModel "hi"
      (CallResult.failure "boom") (GrokCallResult.exc "boom")).1 (by decide),
   (missing_config_guard none true stReady "hi"
      (CallResult.failure "boom") (GrokCallResult.exc "boom")).2 (by decide)⟩

/-- C5: for every adapter, a successful call appends exactly two
messages to the history, the user-turn entry first and the
assistant-turn entry second, and returns the reply text. -/
theorem success_appends_two (api_key : Option String) (client : Bool)
    (st : HandlerState) (p text : String)
    (hkey : strOptTruthy api_key = true) (hclient : client = true)
    (hm : strOptTruthy st.selected_model = true) :
    ollama_get_response st p (CallResult.success text) =
      ({ st with conversation_history := st.conversation_history ++
          [Message.mk "user" p, Message.mk "assistant" text] }, text) ∧
    openai_get_response api_key client st p (CallResult.success text) =
      ({ st with conversation_history := st.conversation_history ++
          [Message.mk "user" p, Message.mk "assistant" text] }, text) ∧
    anthropic_get_response api_key client st p (CallResult.success text) =
      ({ st with conversation_history := st.conversation_history ++
          [Message.mk "user" p, Message.mk "assistant" text] }, text) ∧
    gemini_get_response api_key client st p (CallResult.success text) =
      ({ st with conversation_history := st.conversation_history ++
          [Message.mk "user" p, Message.mk "assistant" text] }, text) ∧
    grok_get_response api_key st p (GrokCallResult.ok text) =
      ({ st with conversation_history := st.conversation_history ++
          [Message.mk "user" p, Message.mk "assistant" text] }, text) := by
  have hk : (!strOptTruthy api_key || !client) = false := by simp [hkey, hclient]
  have hk2 : (!strOptTruthy api_key) = false := by simp [hkey]
  refine ⟨?_, ?_, ?_, ?_, ?_⟩
  · simp [ollama_get_response, hm]
  · simp [openai_get_response, hk, hm]
  · simp [anthropic_get_response, hk, hm]
  · simp [gemini_get_response, hk, hm]
  · simp [grok_get_response, hk2, hm]

/-- Witness for C5: the success theorem applied at a concrete agent
state with model and key set. -/
theorem success_appends_two_witness :
    ollama_get_response stReady "hi" (CallResult.success "yo") =
      ({ stReady with conversation_history := stReady.conversation_history ++
          [Message.mk "user" "hi", Message.mk "assistant" "yo"] }, "yo") ∧
    openai_get_response (some "k") true stReady "hi" (CallResult.success "yo") =
      ({ stReady with conversation_history := stReady.conversation_history ++
          [Message.mk "user" "hi", Message.mk "assistant" "yo"] }, "yo") ∧
    anthropic_get_response (some "k") true stReady "hi" (CallResult.success "yo") =
      ({ stReady with conversation_history := stReady.conversation_history ++
          [Message.mk "user" "hi", Message.mk "assistant" "yo"] }, "yo") ∧
    gemini_get_response (some "k") true stReady "hi" (CallResult.success "yo") =
      ({ stReady with conversation_history := stReady.conversation_history ++
          [Message.mk "user" "hi", Message.mk "assistant" "yo"] }, "yo") ∧
    grok_get_response (some "k") stReady "hi" (GrokCallResult.ok "yo") =
      ({ stReady with conversation_history := stReady.conversation_history ++
          [Message.mk "user" "hi", Message.mk "assistant" "yo"] }, "yo") :=
  success_appends_two (some "k") true stReady "hi" "yo" (by decide) rfl (by decide)

/-- C3 counterexample: a failing Gemini call with key, client and model
all set leaves the history unchanged, so the history does NOT grow by
exactly one message as the claim asserts for every adapter. -/
theorem gemini_failure_not_grown_by_one :
    (gemini_get_response (some "k") true stReady "hi"
        (CallResult.failure "boom")).1.conversation_history.length ≠
      stReady.conversation_history.length + 1 := by
  decide

/-- C3 as amended: with credentials and model set, a failing call
returns a string beginning with "Error:" for every adapter; for the
LocalInference, HostedA (OpenAI), HostedB (Anthropic) and HostedC
(Grok) adapters the user-turn entry appended before the call remains in
the history (the history grows by exactly one message), while the
HostedD (Gemini) adapter appends only after a successful call, so on
failure its history is exactly unchanged. -/
theorem failure_history_spec (api_key : Option String) (client : Bool)
    (st : HandlerState) (p e text : String) (status : Nat)
    (hkey : strOptTruthy api_key = true) (hclient : client = true)
    (hm : strOptTruthy st.selected_model = true) :
    (ollama_get_response st p (CallResult.failure e)).1.conversation_history =
        st.conversation_history ++ [Message.mk "user" p] ∧
      errorTagged (ollama_get_response st p (CallResult.failure e)).2 ∧
    (openai_get_response api_key client st p (CallResult.failure e)).1.conversation_history =
        st.conversation_history ++ [Message.mk "user" p] ∧
      errorTagged (openai_get_response api_key client st p (CallResult.failure e)).2 ∧
    (anthropic_get_response api_key client st p (CallResult.failure e)).1.conversation_history =
        st.conversation_history ++ [Message.mk "user" p] ∧
      errorTagged (anthropic_get_response api_key client st p (CallResult.failure e)).2 ∧
    (grok_get_response api_key st p (GrokCallResult.exc e)).1.conversation_history =
        st.conversation_history ++ [Message.mk "user" p] ∧
      errorTagged (grok_get_response api_key st p (GrokCallResult.exc e)).2 ∧
    (grok_get_response api_key st p (GrokCallResult.httpError status text)).1.conversation_history =
        st.conversation_history ++ [Message.mk "user" p] ∧
      errorTagged (grok_get_response api_key st p (GrokCallResult.httpError status text)).2 ∧
    (gemini_get_response api_key client st p (CallResult.failure e)).1 = st ∧
      errorTagged (gemini_get_response api_key client st p (CallResult.failure e)).2 := by
  have hk : (!strOptTruthy api_key || !client) = false := by simp [hkey, hclient]
  have hk2 : (!strOptTruthy api_key) = false := by simp [hkey]
  have hollama : ollama_get_response st p (CallResult.failure e) =
      ({ st with conversation_history := st.conversation_history ++ [Message.mk "user" p] },
        "Error: Could not generate response") := by
    simp [ollama_get_response, hm]
  have hopenai : openai_get_response api_key client st p (CallResult.failure e) =
      ({ st with conversation_history := st.conversation_history ++ [Message.mk "user" p] },
        "Error: Could not generate response - " ++ e) := by
    simp [openai_get_response, hk, hm]
  have hanthropic : anthropic_get_response api_key client st p (CallResult.failure e) =
      ({ st with conversation_history := st.conversation_history ++ [Message.mk "user" p] },
        "Error: Could not generate response - " ++ e) := by
    simp [anthropic_get_response, hk, hm]
  have hgrokExc : grok_get_response api_key st p (GrokCallResult.exc e) =
      ({ st with conversation_history := st.conversation_history ++ [Message.mk "user" p] },
        "Error: Could not generate response - " ++ e) := by
    simp [grok_get_response, hk2, hm]
  have hgrokHttp : grok_get_response api_key st p (GrokCallResult.httpError status text) =
      ({ st with conversation_history := st.conversation_history ++ [Message.mk "user" p] },
        "Error: Grok API error: " ++ toString status ++ " - " ++ text) := by
    simp [grok_get_response, hk2, hm]
  have hgemini : gemini_get_response api_key client st p (CallResult.failure e) =
      (st, "Error: Could not generate response - " ++ e) := by
    simp [gemini_get_response, hk, hm]
  rw [hollama, hopenai, hanthropic, hgrokExc, hgrokHttp, hgemini]
  exact ⟨rfl, errorTagged_noGen, rfl, errorTagged_noGenDash e, rfl, errorTagged_noGenDash e,
    rfl, errorTagged_noGenDash e, rfl, errorTagged_grokHttp status text,
    rfl, errorTagged_noGenDash e⟩

/-- Witness for the amended C3 at a concrete agent state, prompt and
failure outcome. -/
theorem failure_history_spec_witness :
    (ollama_get_response stReady "hi" (CallResult.failure "boom")).1.conversation_history =
        stReady.conversation_history ++ [Message.mk "user" "hi"] ∧
      errorTagged (ollama_get_response stReady "hi" (CallResult.failure "boom")).2 ∧
    (openai_get_response (some "k") true stReady "hi" (CallResult.failure "boom")).1.conversation_history =
        stReady.conversation_history ++ [Message.mk "user" "hi"] ∧
      errorTagged (openai_get_response (some "k") true stReady "hi" (CallResult.failure "boom")).2 ∧
    (anthropic_get_response (some "k") true stReady "hi" (CallResult.failure "boom")).1.conversation_history =
        stReady.conversation_history ++ [Message.mk "user" "hi"] ∧
      errorTagged (anthropic_get_response (some "k") true stReady "hi" (CallResult.failure "boom")).2 ∧
    (grok_get_response (some "k") stReady "hi" (GrokCallResult.exc "boom")).1.conversation_history =
        stReady.conversation_history ++ [Message.mk "user" "hi"] ∧
      errorTagged (grok_get_response (some "k") stReady "hi" (GrokCallResult.exc "boom")).2 ∧
    (grok_get_response (some "k") stReady "hi" (GrokCallResult.httpError 401 "nope")).1.conversation_history =
        stReady.conversation_history ++ [Message.mk "user" "hi"] ∧
      errorTagged (grok_get_response (some "k") stReady "hi" (GrokCallResult.httpError 401 "nope")).2 ∧
    (gemini_get_response (some "k") true stReady "hi" (CallResult.failure "boom")).1 = stReady ∧
      errorTagged (gemini_get_response (some "k") true stReady "hi" (CallResult.failure "boom")).2 :=
  failure_history_spec (some "k") true stReady "hi" "boom" "nope" 401
    (by decide) rfl (by decide)

/-- C7 counterexample: with the key and client fixed, the HostedA
(OpenAI) adapter's model list differs for two different network
model-list responses, so it is not a static hardcoded catalog
independent of the network query. -/
theorem openai_models_not_static :
    openai_get_available_models (some "k") true (ModelListOutcome.ok ["gpt-4"]) ≠
      openai_get_available_models (some "k") true (ModelListOutcome.ok []) := by
  decide

/-- C7 as amended: the HostedA (OpenAI) adapter's listAvailableModels
is a live query whose result depends on the provider's model-list
response; the static hardcoded catalogs belong to the HostedC (Grok)
and HostedB (Anthropic) adapters, which return fixed constant lists
whenever the key (and client) is set. -/
theorem hosted_models_catalog (k : String) (hk : k ≠ "") :
    (∃ o1 o2 : ModelListOutcome,
      openai_get_available_models (some k) true o1 ≠
        openai_get_available_models (some k) true o2) ∧
    grok_get_available_models (some k) = PyResult.ret ["grok-1", "grok-2"] ∧
    anthropic_get_available_models (some k) true =
      PyResult.ret ["claude-3-opus-20240229", "claude-3-sonnet-20240229",
                    "claude-3-haiku-20240307"] := by
  have ht : strOptTruthy (some k) = true := by simp [strOptTruthy, hk]
  refine ⟨⟨ModelListOutcome.ok ["gpt-4"], ModelListOutcome.ok [], ?_⟩, ?_, ?_⟩
  · simp [openai_get_available_models, ht]
    decide
  · simp [grok_get_available_models, ht]
  · simp [anthropic_get_available_models, ht]

/-- Witness for the amended C7 at the concrete key "k". -/
theorem hosted_models_catalog_witness :
    (∃ o1 o2 : ModelListOutcome,
      openai_get_available_models (some "k") true o1 ≠
        openai_get_available_models (some "k") true o2) ∧
    grok_get_available_models (some "k") = PyResult.ret ["grok-1", "grok-2"] ∧
    anthropic_get_available_models (some "k") true =
      PyResult.ret ["claude-3-opus-20240229", "claude-3-sonnet-20240229",
                    "claude-3-haiku-20240307"] :=
  hosted_models_catalog "k" (by decide)

/-- C8 counterexample: the LocalInference (Ollama) adapter's
listAvailableModels propagates an exception raised while parsing the
body of a 200 response (only ConnectionError is caught), contradicting
the claim that it never raises and returns an empty sequence on any
failure. -/
theorem ollama_models_raises :
    ollama_get_available_models
        (OllamaTagsOutcome.got 200 (PyResult.raised "invalid json")) =
      PyResult.raised "invalid json" ∧
    ollama_get_available_models
        (OllamaTagsOutcome.got 200 (PyResult.raised "invalid json")) ≠
      PyResult.ret [] := by
  exact ⟨by decide, by decide⟩

/-- C8 as amended: the OpenAI, Gemini, Anthropic and Grok adapters
never raise — every outcome yields a returned list, and a missing key
yields the empty list; the LocalInference (Ollama) adapter returns a
list without raising for any response with a parseable body (the
listed models on status 200, the empty list otherwise) and for
connection errors, but a parse failure of a 200 response body or a
non-connection transport exception propagates to the caller. -/
theorem models_no_raise_spec (api_key : Option String) (client : Bool)
    (o : ModelListOutcome) (status : Nat) (models : List String) :
    (∃ ms, openai_get_available_models api_key client o = PyResult.ret ms) ∧
    (∃ ms, gemini_get_available_models api_key client o = PyResult.ret ms) ∧
    (∃ ms, anthropic_get_available_models api_key client = PyResult.ret ms) ∧
    (∃ ms, grok_get_available_models api_key = PyResult.ret ms) ∧
    (strOptTruthy api_key = false →
      openai_get_available_models api_key client o = PyResult.ret [] ∧
      gemini_get_available_models api_key client o = PyResult.ret [] ∧
      anthropic_get_available_models api_key client = PyResult.ret [] ∧
      grok_get_available_models api_key = PyResult.ret []) ∧
    ollama_get_available_models (OllamaTagsOutcome.got status (PyResult.ret models)) =
      PyResult.ret (if status == 200 then models else []) ∧
    ollama_get_available_models OllamaTagsOutcome.connError = PyResult.ret [] := by
  refine ⟨?_, ?_, ?_, ?_, ?_, ?_, ?_⟩
  · cases hk : (!strOptTruthy api_key || !client) with
    | true => exact ⟨[], by simp [openai_get_available_models, hk]⟩
    | false =>
      cases o with
      | ok ids =>
          exact ⟨ids.filter fun i => pyStartsWith i "gpt-3.5" || pyStartsWith i "gpt-4",
            by simp [openai_get_available_models, hk]⟩
      | exc e2 => exact ⟨[], by simp [openai_get_available_models, hk]⟩
  · cases hk : (!strOptTruthy api_key || !client) with
    | true => exact ⟨[], by simp [gemini_get_available_models, hk]⟩
    | false =>
      cases o with
      | ok names =>
          exact ⟨names.filter fun n => pyContains n "gemini",
            by simp [gemini_get_available_models, hk]⟩
      | exc e2 =>
          exact ⟨["gemini-1.0-pro", "gemini-1.5-pro", "gemini-1.5-flash"],
            by simp [gemini_get_available_models, hk]⟩
  · cases hk : (!strOptTruthy api_key || !client) with
    | true => exact ⟨[], by simp [anthropic_get_available_models, hk]⟩
    | false =>
        exact ⟨["claude-3-opus-20240229", "claude-3-sonnet-20240229",
                "claude-3-haiku-20240307"],
          by simp [anthropic_get_available_models, hk]⟩
  · cases hk : (!strOptTruthy api_key) with
    | true => exact ⟨[], by simp [grok_get_available_models, hk]⟩
    | false => exact ⟨["grok-1", "grok-2"], by simp [grok_get_available_models, hk]⟩
  · intro hkey
    have hk : (!strOptTruthy api_key || !client) = true := by simp [hkey]
    have hk2 : (!strOptTruthy api_key) = true := by simp [hkey]
    exact ⟨by simp [openai_get_available_models, hk],
      by simp [gemini_get_available_models, hk],
      by simp [anthropic_get_available_models, hk],
      by simp [grok_get_available_models, hk2]⟩
  · cases hs : (status == 200) with
    | true => simp [ollama_get_available_models, hs]
    | false => simp [ollama_get_available_models, hs]
  · rfl

/-- Witness for the amended C8 at concrete outcomes, discharging the
missing-key hypothesis with key none. -/
theorem models_no_raise_spec_witness :
    (∃ ms, openai_get_available_models none true (ModelListOutcome.ok ["gpt-4"]) =
      PyResult.ret ms) ∧
    (openai_get_available_models none true (ModelListOutcome.ok ["gpt-4"]) = PyResult.ret [] ∧
      gemini_get_available_models none true (ModelListOutcome.ok ["gpt-4"]) = PyResult.ret [] ∧
      anthropic_get_available_models none true = PyResult.ret [] ∧
      grok_get_available_models none = PyResult.ret []) ∧
    ollama_get_available_models (OllamaTagsOutcome.got 200 (PyResult.ret ["llama3"])) =
      PyResult.ret (if (200 == 200) then ["llama3"] else []) ∧
    ollama_get_available_models OllamaTagsOutcome.connError = PyResult.ret [] := by
  have h := models_no_raise_spec none true (ModelListOutcome.ok ["gpt-4"]) 200 ["llama3"]
  exact ⟨h.1, h.2.2.2.2.1 rfl, h.2.2.2.2.2.1, h.2.2.2.2.2.2⟩

/-- One-step unfolding of the loop body for at least one remaining
iteration. -/
theorem loopFrom_succ (stop : Nat → Bool) (c n : Nat) :
    loopFrom stop c (n + 1) =
      if stop c then ([], !stop c)
      else if stop (c + 1) || n == 0 then ([Speaker.second], !stop (c + 1))
      else (Speaker.second :: Speaker.first :: (loopFrom stop (c + 2) n).1,
            (loopFrom stop (c + 2) n).2) := by
  rw [loopFrom]

/-- With the cancellation flag never set, the loop body runs all its
iterations and produces the alternating trace, then reports
completion. -/
theorem loopFrom_no_stop : ∀ (remaining c : Nat),
    loopFrom (fun _ => false) c (remaining + 1) = (altTrace (remaining + 1), true)
  | 0, c => by rw [loopFrom_succ]; simp [altTrace]
  | n + 1, c => by
    have ih := loopFrom_no_stop n (c + 2)
    rw [loopFrom_succ, ih]
    simp [altTrace]

/-- Shape facts about the alternating trace: the second mover speaks
n + 1 times, the first mover n times, and the length is 2(n+1) - 1. -/
theorem altTrace_counts : ∀ n : Nat,
    (altTrace (n + 1)).count Speaker.second = n + 1 ∧
    (altTrace (n + 1)).count Speaker.first = n ∧
    (altTrace (n + 1)).length = 2 * (n + 1) - 1
  | 0 => by decide
  | n + 1 => by
    obtain ⟨h1, h2, h3⟩ := altTrace_counts n
    refine ⟨?_, ?_, ?_⟩
    · show (Speaker.second :: Speaker.first :: altTrace (n + 1)).count Speaker.second = n + 2
      simp [h1]
    · show (Speaker.second :: Speaker.first :: altTrace (n + 1)).count Speaker.first = n + 1
      simp [h2]
    · show (Speaker.second :: Speaker.first :: altTrace (n + 1)).length = 2 * (n + 2) - 1
      simp [h3]
      omega

/-- C1: for maxTurns = N ≥ 1, with the cancellation flag never set and
every call returning, the loop performs the strictly alternating trace
beginning with the second mover: 2N - 1 calls in total, N by the second
mover and N - 1 by the first mover, and then reports completion; in
particular maxTurns = 1 yields exactly the one second-mover call. -/
theorem turn_loop_spec (N : Nat) (hN : 1 ≤ N) :
    run_conversation_calls (fun _ => false) N = (altTrace N, true) ∧
    (altTrace N).count Speaker.second = N ∧
    (altTrace N).count Speaker.first = N - 1 ∧
    (altTrace N).length = 2 * N - 1 ∧
    run_conversation_calls (fun _ => false) 1 = ([Speaker.second], true) := by
  obtain ⟨n, rfl⟩ : ∃ n, N = n + 1 := ⟨N - 1, by omega⟩
  obtain ⟨h1, h2, h3⟩ := altTrace_counts n
  exact ⟨loopFrom_no_stop n 0, h1, by simpa using h2, h3, loopFrom_no_stop 0 0⟩

/-- Witness for C1 at maxTurns = 3. -/
theorem turn_loop_spec_witness :
    run_conversation_calls (fun _ => false) 3 = (altTrace 3, true) ∧
    (altTrace 3).count Speaker.second = 3 ∧
    (altTrace 3).count Speaker.first = 3 - 1 ∧
    (altTrace 3).length = 2 * 3 - 1 ∧
    run_conversation_calls (fun _ => false) 1 = ([Speaker.second], true) :=
  turn_loop_spec 3 (by decide)

/-- If the flag is first observed set after k calls (k ≥ 1, and call k
exists because k ≤ 2(remaining+1) - 1 counts from the current point),
the loop makes at most k - c further calls and does not report
completion. -/
theorem loopFrom_stop_bound : ∀ (remaining c k : Nat), c < k →
    (loopFrom (stopAt k) c (remaining + 1)).1.length ≤ k - c ∧
    (k - c ≤ 2 * (remaining + 1) - 1 → (loopFrom (stopAt k) c (remaining + 1)).2 = false)
  | 0, c, k, hc => by
    have hsc : stopAt k c = false := by simp [stopAt]; omega
    rw [loopFrom_succ]
    constructor
    · simp [hsc]
      omega
    · intro hle
      have h1 : stopAt k (c + 1) = true := by simp [stopAt]; omega
      simp [hsc, h1]
  | n + 1, c, k, hc => by
    have hsc : stopAt k c = false := by simp [stopAt]; omega
    rw [loopFrom_succ]
    by_cases h1 : k ≤ c + 1
    · have hs1 : stopAt k (c + 1) = true := by simp [stopAt]; omega
      constructor
      · simp [hsc, hs1]
        omega
      · intro hle
        simp [hsc, hs1]
    · have hs1 : stopAt k (c + 1) = false := by simp [stopAt]; omega
      by_cases h2 : k ≤ c + 2
      · have hs2 : stopAt k (c + 2) = true := by simp [stopAt]; omega
        have hinner : loopFrom (stopAt k) (c + 2) (n + 1) = ([], false) := by
          rw [loopFrom_succ]
          simp [hs2]
        constructor
        · simp [hsc, hs1, hinner]
          omega
        · intro hle
          simp [hsc, hs1, hinner]
      · have ih := loopFrom_stop_bound n (c + 2) k (by omega)
        constructor
        · have hlen := ih.1
          simp [hsc, hs1]
          omega
        · intro hle
          have hcomp := ih.2 (by omega)
          simp [hsc, hs1]
          exact hcomp

/-- C6: if the cancellation flag becomes true during the pacing delay
that follows adapter call k (so it is observed set at every check from
k completed calls onward, and call k exists: 1 ≤ k ≤ 2N - 1), the loop
performs no call k + 1 — at most k calls happen — and the run does not
take the completion path. -/
theorem cancellation_spec (N k : Nat) (hN : 1 ≤ N) (hk : 1 ≤ k)
    (hke : k ≤ 2 * N - 1) :
    (run_conversation_calls (stopAt k) N).1.length ≤ k ∧
    (run_conversation_calls (stopAt k) N).2 = false := by
  obtain ⟨n, rfl⟩ : ∃ n, N = n + 1 := ⟨N - 1, by omega⟩
  have h := loopFrom_stop_bound n 0 k (by omega)
  exact ⟨by simpa using h.1, h.2 (by omega)⟩

/-- Witness for C6: the flag set during the delay after call 3 of a
4-turn run stops the loop at 3 calls with no completion report. -/
theorem cancellation_spec_witness :
    (run_conversation_calls (stopAt 3) 4).1.length ≤ 3 ∧
    (run_conversation_calls (stopAt 3) 4).2 = false :=
  cancellation_spec 4 3 (by decide) (by decide) (by decide)

end MultiAgentChat
